import Mathlib

/-!
Shallow embedding of `src/main.py` (Airup-Stock-Checker) in Lean 4, together
with theorems settling the frozen claims about the script.

The script is single-threaded and fully synchronous, so all stateful code is
embedded as explicit state passing: `check_availability` becomes a pure
function from the current `Statistics` plus a simulated HTTP outcome to a
record of the new statistics, the boolean return value, the notification
calls attempted, and the log lines emitted.  Python integers are unbounded,
so counters are `Nat` (they start at 0 and are only incremented).
-/

/-- Embedding of the `NotificationStatus` enum (main.py lines 15-20). -/
inductive NotificationStatus where
  | success
  | error
  | info
  | warning
deriving DecidableEq, Repr

/-- Embedding of the `Statistics` dataclass (main.py lines 32-38): four
counters, all defaulting to 0. -/
structure Statistics where
  total_checks : Nat := 0
  in_stock_count : Nat := 0
  out_of_stock_count : Nat := 0
  error_count : Nat := 0
deriving DecidableEq, Repr

/-- Embedding of the `ProductConfig` dataclass (main.py lines 22-30). -/
structure ProductConfig where
  url : String
  cart_id : String
  bottle_handle : String
  flavor_handle : String
  country : String
  language : String
deriving DecidableEq, Repr

/-- A notification backend as seen by the fan-out `_notify_all`: the fan-out
is written against the capability `send_notification(title, message, status)`
and only observes whether that call returns normally or raises.  A backend is
therefore embedded as its class name (used in the error log line) together
with the outcome of its `send_notification` call: `Except.ok ()` for a normal
return and `Except.error e` for a raised exception with message `e`. -/
structure Service where
  name : String
  behavior : Except String Unit
deriving Repr

/-- Whether a backend's `send_notification` raises when called. -/
def Service.raises (s : Service) : Bool :=
  match s.behavior with
  | .error _ => true
  | .ok _ => false

/-- One attempted `send_notification` call: which backend, and the three
arguments it received. -/
structure Call where
  name : String
  title : String
  message : String
  status : NotificationStatus
deriving DecidableEq, Repr

/-- One console log line: message text and the status it is logged at
(`ConsoleLogger.log`, main.py lines 105-116). -/
structure LogEntry where
  msg : String
  status : NotificationStatus
deriving DecidableEq, Repr

/-- Embedding of `AirUpChecker._notify_all` (main.py lines 196-202):

    for service in self.notification_services:
        try:
            service.send_notification(title, message, status)
        except Exception as e:
            self.logger.log(f"Error sending notification via ...: {e}", ERROR)

It iterates over the backends in registration order; every backend receives
exactly one `send_notification` call; a raised exception is caught and turned
into an error log line.  The result is the ordered list of calls attempted
and the ordered list of error log lines.  The function is total: no exception
propagates to the caller. -/
def notifyAll : List Service → String → String → NotificationStatus →
    List Call × List LogEntry
  | [], _, _, _ => ([], [])
  | s :: rest, t, m, stt =>
    let p := notifyAll rest t m stt
    match s.behavior with
    | .ok _ => (⟨s.name, t, m, stt⟩ :: p.1, p.2)
    | .error e =>
      (⟨s.name, t, m, stt⟩ :: p.1,
       ⟨"Error sending notification via " ++ s.name ++ ": " ++ e,
        .error⟩ :: p.2)

/-- Does `needle` occur at the start of `hay`?  (Helper for the Python `in`
substring test.) -/
def startsWithL : List Char → List Char → Bool
  | [], _ => true
  | _ :: _, [] => false
  | a :: as, b :: bs => a == b && startsWithL as bs

/-- Does `needle` occur as a contiguous substring of `hay`?  This is the
semantics of Python's `needle in hay` on strings. -/
def containsSub (needle : List Char) : List Char → Bool
  | [] => needle.isEmpty
  | c :: rest => startsWithL needle (c :: rest) || containsSub needle rest

/-- Embedding of the test `"OUT_OF_STOCK" in response.text`
(main.py line 171). -/
def containsMarker (body : String) : Bool :=
  containsSub "OUT_OF_STOCK".data body.data

/-- Decimal digits of a natural number, most significant first: the
embedding of Python's `str()` / f-string formatting of a non-negative int. -/
def natDigits (n : Nat) : List Char :=
  if h : n < 10 then [Nat.digitChar n]
  else natDigits (n / 10) ++ [Nat.digitChar (n % 10)]
decreasing_by exact Nat.div_lt_self (by omega) (by omega)

/-- Python `str()` of a non-negative int, as a Lean `String`. -/
def pyNatStr (n : Nat) : String :=
  ⟨natDigits n⟩

/-- The simulated outcome of the `requests.post` call in
`check_availability`: either a response with a status code and a body text,
or a transport-level error (`requests.exceptions.RequestException`) with a
message. -/
inductive HttpOutcome where
  | response (status : Nat) (body : String)
  | transportError (msg : String)
deriving DecidableEq, Repr

/-- Everything observable about one `check_availability` invocation: the
statistics after the call, the returned boolean, the `send_notification`
calls attempted, and the log lines emitted. -/
structure CheckResult where
  stats : Statistics
  ret : Bool
  calls : List Call
  logs : List LogEntry
deriving DecidableEq, Repr

/-- The notification title used in the in-stock branch (main.py line 179). -/
def inStockTitle : String := "AirUp Charcoal Grey Bottle Available!"

/-- The notification message used in the in-stock branch
(main.py line 180). -/
def inStockMessage : String :=
  "The classic AirUp bottle in Charcoal Grey is now in stock. Go buy it!"

/-- Embedding of `AirUpChecker.check_availability` (main.py lines 161-194).
`total_checks` is incremented unconditionally first; then:
  - status 200 and body contains "OUT_OF_STOCK": `out_of_stock_count += 1`,
    warning log, return `False`;
  - status 200 otherwise: `in_stock_count += 1`, success log, fan-out to all
    backends with SUCCESS status, return `True`;
  - other status: `error_count += 1`, error log with the status code,
    return `False`;
  - `RequestException` from the HTTP call: `error_count += 1`, error log,
    return `False` (the exception is caught, not propagated).
`update_title` is a pure side effect on the terminal title and is modelled
separately (`mkTitleData` / `winEscapeData`). -/
def checkAvailability (st : Statistics) (svcs : List Service)
    (o : HttpOutcome) : CheckResult :=
  let st1 : Statistics := { st with total_checks := st.total_checks + 1 }
  match o with
  | .response status body =>
    if status = 200 then
      if containsMarker body then
        { stats := { st1 with
            out_of_stock_count := st1.out_of_stock_count + 1 },
          ret := false, calls := [],
          logs := [⟨"Still out of stock...", .warning⟩] }
      else
        { stats := { st1 with in_stock_count := st1.in_stock_count + 1 },
          ret := true,
          calls := (notifyAll svcs inStockTitle inStockMessage .success).1,
          logs := ⟨"IN STOCK! Sending notifications...", .success⟩ ::
            (notifyAll svcs inStockTitle inStockMessage .success).2 }
    else
      { stats := { st1 with error_count := st1.error_count + 1 },
        ret := false, calls := [],
        logs := [⟨"Unexpected status code: " ++ pyNatStr status, .error⟩] }
  | .transportError e =>
      { stats := { st1 with error_count := st1.error_count + 1 },
        ret := false, calls := [],
        logs := [⟨"Error checking availability: " ++ e, .error⟩] }

/-- The boolean `check_availability` returns, as a function of the HTTP
outcome alone (it does not depend on the statistics or the backends). -/
def retOfOutcome (o : HttpOutcome) : Bool :=
  match o with
  | .response status body => status == 200 && !containsMarker body
  | .transportError _ => false

/-- Iterated checking: the statistics after running `check_availability`
once per outcome in the list, left to right. -/
def runChecks (svcs : List Service) (init : Statistics)
    (outs : List HttpOutcome) : Statistics :=
  outs.foldl (fun st o => (checkAvailability st svcs o).stats) init

/-- Componentwise order on the four counters. -/
def statsLe (a b : Statistics) : Prop :=
  a.total_checks ≤ b.total_checks ∧
  a.in_stock_count ≤ b.in_stock_count ∧
  a.out_of_stock_count ≤ b.out_of_stock_count ∧
  a.error_count ≤ b.error_count

/-- One observable event of the main loop: a `check_availability` invocation
returning the given boolean, or a `time.sleep` of the given number of
seconds. -/
inductive Event where
  | check (ret : Bool)
  | sleep (secs : Nat)
deriving DecidableEq, Repr

/-- Embedding of the `while True:` loop of `main` (main.py lines 233-240),
driven by a finite list of simulated HTTP outcomes (the loop consumes one
outcome per iteration; an exhausted list means the simulation was stopped
while the loop was still running):

    while True:
        if checker.check_availability():
            ...
            break
        ...
        time.sleep(300)

Returns the list of events in order, and whether the loop terminated via the
`break` within the supplied outcomes. -/
def mainLoop (svcs : List Service) : Statistics → List HttpOutcome →
    List Event × Bool
  | _, [] => ([], false)
  | st, o :: rest =>
    let r := checkAvailability st svcs o
    if r.ret then ([Event.check true], true)
    else
      let p := mainLoop svcs r.stats rest
      (Event.check false :: Event.sleep 300 :: p.1, p.2)

/-- The raw (unescaped) console title built by `Statistics.update_title`
(main.py line 42), as a list of characters:
`f"AirUp Checker | No Stock: {out_of_stock_count} | Stock: {in_stock_count}"`. -/
def mkTitleData (st : Statistics) : List Char :=
  "AirUp Checker | No Stock: ".data ++ natDigits st.out_of_stock_count ++
    " | Stock: ".data ++ natDigits st.in_stock_count

/-- One Python `str.replace(pat, rep)` call with a single-character pattern:
each occurrence of `pat` is replaced by `rep`, all other characters are kept.
For a single-character pattern this per-character map is exactly Python's
left-to-right non-overlapping replacement. -/
def replChar (pat : Char) (rep : List Char) (l : List Char) : List Char :=
  l.flatMap fun c => if c = pat then rep else [c]

/-- Embedding of the escape chain of `Statistics.update_title`
(main.py line 44), applied left to right exactly as in the source:

    title.replace("(", "^(").replace(")", "^)").replace("!", "^!")
         .replace("^", "^^").replace("&", "^&").replace("|", "^|")
         .replace("<", "^<").replace(">", "^>")
-/
def winEscapeData (l : List Char) : List Char :=
  replChar '>' ['^', '>'] <| replChar '<' ['^', '<'] <|
    replChar '|' ['^', '|'] <| replChar '&' ['^', '&'] <|
      replChar '^' ['^', '^'] <| replChar '!' ['^', '!'] <|
        replChar ')' ['^', ')'] <| replChar '(' ['^', '('] l

/-- The characters the claim lists as treated specially by the
terminal/shell title-setting mechanism. -/
def specialChars : List Char := ['(', ')', '!', '^', '&', '|', '<', '>']

/-- Modelled from the spec: the intended escaping, in which each special
character occurring in the unescaped title is prefixed with exactly one
caret and every other character is kept unchanged. -/
def specEscapeData (l : List Char) : List Char :=
  l.flatMap fun c => if c ∈ specialChars then ['^', c] else [c]

/-- Embedding of `AirUpChecker._get_request_body` (main.py lines 154-159):
plain f-string interpolation of the five config fields into a JSON-shaped
template, with no escaping of the interpolated values. -/
def getRequestBody (cfg : ProductConfig) : String :=
  "[\x7b\"cartId\":\"" ++ cfg.cart_id ++
    "\",\"bottleHandle\":\"" ++ cfg.bottle_handle ++
    "\",\"flavorHandle\":\"" ++ cfg.flavor_handle ++
    "\",\"country\":\"" ++ cfg.country ++
    "\",\"language\":\"" ++ cfg.language ++ "\"\x7d]"

/-- JSON string-literal escaping of one character: double quote and
backslash are escaped with a backslash, everything else is kept. -/
def jsonEscChar (c : Char) : List Char :=
  if c = '"' then ['\\', '"']
  else if c = '\\' then ['\\', '\\']
  else [c]

/-- JSON string-literal escaping of a whole string. -/
def jsonEscape (s : String) : String :=
  ⟨s.data.flatMap jsonEscChar⟩

/-- Modelled from the spec: the body shape the spec promises, namely a JSON
array containing exactly one object with exactly the five string fields
`cartId`, `bottleHandle`, `flavorHandle`, `country`, `language` whose values
equal the corresponding `ProductConfig` fields, serialized canonically (the
spec's own field order, no whitespace, values as JSON string literals). -/
def requestBodySpec (cfg : ProductConfig) : String :=
  "[\x7b\"cartId\":\"" ++ jsonEscape cfg.cart_id ++
    "\",\"bottleHandle\":\"" ++ jsonEscape cfg.bottle_handle ++
    "\",\"flavorHandle\":\"" ++ jsonEscape cfg.flavor_handle ++
    "\",\"country\":\"" ++ jsonEscape cfg.country ++
    "\",\"language\":\"" ++ jsonEscape cfg.language ++ "\"\x7d]"

/-- A string that can appear verbatim inside a JSON string literal: no
double quote, no backslash, no control character (code point below 0x20). -/
def jsonPlain (s : String) : Bool :=
  s.data.all fun c => !(c == '"') && !(c == '\\') && decide (32 ≤ c.toNat)

/-- A Python exception kind relevant to the Discord backend: accessing a
missing attribute raises `AttributeError`. -/
inductive PyError where
  | attributeError
deriving DecidableEq, Repr

/-- The mutable state of a `DiscordNotificationService` object: the webhook
URL set by `__init__`, and the `statistics` attribute, which is absent
(`none`) until some other code assigns it. -/
structure DiscordService where
  webhook_url : String
  statistics : Option Statistics
deriving DecidableEq, Repr

/-- Embedding of `DiscordNotificationService.__init__` (main.py lines 67-68):
it sets only `webhook_url`; the `statistics` attribute is not assigned. -/
def discordInit (url : String) : DiscordService :=
  { webhook_url := url, statistics := none }

/-- The `color_map` of `DiscordNotificationService.send_notification`
(main.py lines 71-76). -/
def colorOf (status : NotificationStatus) : Nat :=
  match status with
  | .success => 0x00FF00
  | .error => 0xFF0000
  | .info => 0x00FFFF
  | .warning => 0xFFFF00

/-- The `emoji_map` of `DiscordNotificationService.send_notification`
(main.py lines 78-83). -/
def emojiOf (status : NotificationStatus) : String :=
  match status with
  | .success => "✅"
  | .error => "❌"
  | .info => "ℹ️"
  | .warning => "⚠️"

/-- The outbound webhook POST performed by a successful
`DiscordNotificationService.send_notification`: target URL and the embed
fields built from the arguments and the statistics snapshot.  (The
`timestamp` field reads the real-time clock and is outside the embedding.) -/
structure WebhookPost where
  url : String
  embedTitle : String
  description : String
  color : Nat
  statsField : String
deriving DecidableEq, Repr

/-- Embedding of `DiscordNotificationService.send_notification`
(main.py lines 70-103).  Building the embed reads `self.statistics`
(lines 93-96) before `requests.post` runs: if the attribute was never
assigned, the call raises `AttributeError` and no webhook POST happens;
otherwise it produces the POST described by the source. -/
def discordSend (svc : DiscordService) (title message : String)
    (status : NotificationStatus) : Except PyError WebhookPost :=
  match svc.statistics with
  | none => .error .attributeError
  | some st =>
    .ok { url := svc.webhook_url,
          embedTitle := emojiOf status ++ " " ++ title,
          description := message,
          color := colorOf status,
          statsField :=
            "Total Checks: " ++ pyNatStr st.total_checks ++ "\n" ++
            "In Stock Count: " ++ pyNatStr st.in_stock_count ++ "\n" ++
            "Out of Stock Count: " ++ pyNatStr st.out_of_stock_count ++ "\n" ++
            "Error Count: " ++ pyNatStr st.error_count }

/-- A concrete notification service object as built in `main`
(main.py lines 222-225): a desktop service or a Discord service with its
state. -/
inductive ServiceImpl where
  | desktop
  | discord (d : DiscordService)
deriving DecidableEq, Repr

/-- Embedding of the statistics-sharing loop of `AirUpChecker.__init__`
(main.py lines 133-136):

    for service in self.notification_services:
        if isinstance(service, DiscordNotificationService):
            service.statistics = statistics

Only Discord services get their `statistics` attribute assigned; every other
service object is left untouched. -/
def shareStatistics (stats : Statistics) (svcs : List ServiceImpl) :
    List ServiceImpl :=
  svcs.map fun s =>
    match s with
    | .discord d => .discord { d with statistics := some stats }
    | .desktop => .desktop

/-- The error message a raising backend's exception carries (arbitrary for a
non-raising backend). -/
def Service.errMsg (s : Service) : String :=
  match s.behavior with
  | .error e => e
  | .ok _ => ""

lemma notifyAll_calls (svcs : List Service) (t m : String)
    (stt : NotificationStatus) :
    (notifyAll svcs t m stt).1 =
      svcs.map fun s => ⟨s.name, t, m, stt⟩ := by
  induction svcs with
  | nil => rfl
  | cons s rest ih =>
    cases hb : s.behavior <;> simp [notifyAll, hb, ih]

lemma notifyAll_logs (svcs : List Service) (t m : String)
    (stt : NotificationStatus) :
    (notifyAll svcs t m stt).2 =
      svcs.filterMap fun s =>
        match s.behavior with
        | .error e =>
          some ⟨"Error sending notification via " ++ s.name ++ ": " ++ e,
            .error⟩
        | .ok _ => none := by
  induction svcs with
  | nil => rfl
  | cons s rest ih =>
    cases hb : s.behavior <;> simp [notifyAll, hb, ih]

/-- Claim C5: for every list of registered notification backends and every
(title, message, status), `_notify_all` attempts each backend's
`send_notification` exactly once in registration order — the list of calls
is exactly the service list mapped to its call, whatever each backend's
behavior is, so a raising backend never prevents later backends from being
called; and the exceptions of the raising backends are exactly the error
log lines, in order, so they are caught and logged rather than propagated
(`notifyAll` is a total function into calls and logs). -/
theorem notify_all_fanout (svcs : List Service) (t m : String)
    (stt : NotificationStatus) :
    (notifyAll svcs t m stt).1 =
      (svcs.map fun s => ⟨s.name, t, m, stt⟩) ∧
    (notifyAll svcs t m stt).2 =
      svcs.filterMap fun s =>
        match s.behavior with
        | .error e =>
          some ⟨"Error sending notification via " ++ s.name ++ ": " ++ e,
            .error⟩
        | .ok _ => none :=
  ⟨notifyAll_calls svcs t m stt, notifyAll_logs svcs t m stt⟩

/-- Claim C1: on a 200 response whose body does not contain "OUT_OF_STOCK",
`check_availability` returns `True`, increments `in_stock_count` and
`total_checks` by exactly 1, leaves the other two counters unchanged, and
every registered backend receives exactly one `send_notification` call with
status SUCCESS. -/
theorem check_in_stock_behavior (st : Statistics) (svcs : List Service)
    (body : String) (h : containsMarker body = false) :
    (checkAvailability st svcs (.response 200 body)).ret = true ∧
    (checkAvailability st svcs (.response 200 body)).stats.total_checks =
      st.total_checks + 1 ∧
    (checkAvailability st svcs (.response 200 body)).stats.in_stock_count =
      st.in_stock_count + 1 ∧
    (checkAvailability st svcs (.response 200 body)).stats.out_of_stock_count =
      st.out_of_stock_count ∧
    (checkAvailability st svcs (.response 200 body)).stats.error_count =
      st.error_count ∧
    (checkAvailability st svcs (.response 200 body)).calls =
      (svcs.map fun s =>
        ⟨s.name, inStockTitle, inStockMessage, .success⟩) := by
  simp [checkAvailability, h, notifyAll_calls]

theorem check_in_stock_behavior_witness :
    containsMarker "the requested item is AVAILABLE" = false ∧
    ((checkAvailability ⟨7, 1, 2, 3⟩
        [⟨"DesktopNotificationService", Except.ok ()⟩,
         ⟨"DiscordNotificationService", Except.ok ()⟩]
        (.response 200 "the requested item is AVAILABLE")).ret = true ∧
     (checkAvailability ⟨7, 1, 2, 3⟩
        [⟨"DesktopNotificationService", Except.ok ()⟩,
         ⟨"DiscordNotificationService", Except.ok ()⟩]
        (.response 200 "the requested item is AVAILABLE")).stats.total_checks
        = 7 + 1 ∧
     (checkAvailability ⟨7, 1, 2, 3⟩
        [⟨"DesktopNotificationService", Except.ok ()⟩,
         ⟨"DiscordNotificationService", Except.ok ()⟩]
        (.response 200 "the requested item is AVAILABLE")).stats.in_stock_count
        = 1 + 1 ∧
     (checkAvailability ⟨7, 1, 2, 3⟩
        [⟨"DesktopNotificationService", Except.ok ()⟩,
         ⟨"DiscordNotificationService", Except.ok ()⟩]
        (.response 200 "the requested item is AVAILABLE")).stats.out_of_stock_count
        = 2 ∧
     (checkAvailability ⟨7, 1, 2, 3⟩
        [⟨"DesktopNotificationService", Except.ok ()⟩,
         ⟨"DiscordNotificationService", Except.ok ()⟩]
        (.response 200 "the requested item is AVAILABLE")).stats.error_count
        = 3 ∧
     (checkAvailability ⟨7, 1, 2, 3⟩
        [⟨"DesktopNotificationService", Except.ok ()⟩,
         ⟨"DiscordNotificationService", Except.ok ()⟩]
        (.response 200 "the requested item is AVAILABLE")).calls =
       (([⟨"DesktopNotificationService", Except.ok ()⟩,
          ⟨"DiscordNotificationService", Except.ok ()⟩] : List Service).map
          fun s => ⟨s.name, inStockTitle, inStockMessage, .success⟩)) :=
  ⟨by decide, check_in_stock_behavior ⟨7, 1, 2, 3⟩
    [⟨"DesktopNotificationService", Except.ok ()⟩,
     ⟨"DiscordNotificationService", Except.ok ()⟩]
    "the requested item is AVAILABLE" (by decide)⟩

/-- Claim C3: on a 200 response whose body contains "OUT_OF_STOCK",
`check_availability` returns `False`, increments `out_of_stock_count` (and
`total_checks`) by exactly 1, leaves `in_stock_count` and `error_count`
unchanged, and calls no notification backend. -/
theorem check_out_of_stock_behavior (st : Statistics) (svcs : List Service)
    (body : String) (h : containsMarker body = true) :
    (checkAvailability st svcs (.response 200 body)).ret = false ∧
    (checkAvailability st svcs (.response 200 body)).stats.total_checks =
      st.total_checks + 1 ∧
    (checkAvailability st svcs (.response 200 body)).stats.out_of_stock_count =
      st.out_of_stock_count + 1 ∧
    (checkAvailability st svcs (.response 200 body)).stats.in_stock_count =
      st.in_stock_count ∧
    (checkAvailability st svcs (.response 200 body)).stats.error_count =
      st.error_count ∧
    (checkAvailability st svcs (.response 200 body)).calls = [] := by
  simp [checkAvailability, h]

theorem check_out_of_stock_behavior_witness :
    containsMarker "status: OUT_OF_STOCK for this variant" = true ∧
    ((checkAvailability ⟨7, 1, 2, 3⟩
        [⟨"DesktopNotificationService", Except.ok ()⟩]
        (.response 200 "status: OUT_OF_STOCK for this variant")).ret = false ∧
     (checkAvailability ⟨7, 1, 2, 3⟩
        [⟨"DesktopNotificationService", Except.ok ()⟩]
        (.response 200 "status: OUT_OF_STOCK for this variant")).stats.total_checks
        = 7 + 1 ∧
     (checkAvailability ⟨7, 1, 2, 3⟩
        [⟨"DesktopNotificationService", Except.ok ()⟩]
        (.response 200 "status: OUT_OF_STOCK for this variant")).stats.out_of_stock_count
        = 2 + 1 ∧
     (checkAvailability ⟨7, 1, 2, 3⟩
        [⟨"DesktopNotificationService", Except.ok ()⟩]
        (.response 200 "status: OUT_OF_STOCK for this variant")).stats.in_stock_count
        = 1 ∧
     (checkAvailability ⟨7, 1, 2, 3⟩
        [⟨"DesktopNotificationService", Except.ok ()⟩]
        (.response 200 "status: OUT_OF_STOCK for this variant")).stats.error_count
        = 3 ∧
     (checkAvailability ⟨7, 1, 2, 3⟩
        [⟨"DesktopNotificationService", Except.ok ()⟩]
        (.response 200 "status: OUT_OF_STOCK for this variant")).calls = []) :=
  ⟨by decide, check_out_of_stock_behavior ⟨7, 1, 2, 3⟩
    [⟨"DesktopNotificationService", Except.ok ()⟩]
    "status: OUT_OF_STOCK for this variant" (by decide)⟩

/-- Claim C4: on a transport-level error from the HTTP call, or on a
response with a status other than 200, `check_availability` increments
`error_count` (and `total_checks`) by exactly 1, leaves the other counters
unchanged, returns `False`, and calls no notification backend.  The
embedding is a total function — the `RequestException` is caught inside
`check_availability` and never reaches the caller. -/
theorem check_error_behavior :
    (∀ (st : Statistics) (svcs : List Service) (e : String),
      (checkAvailability st svcs (.transportError e)).ret = false ∧
      (checkAvailability st svcs (.transportError e)).stats.total_checks =
        st.total_checks + 1 ∧
      (checkAvailability st svcs (.transportError e)).stats.error_count =
        st.error_count + 1 ∧
      (checkAvailability st svcs (.transportError e)).stats.in_stock_count =
        st.in_stock_count ∧
      (checkAvailability st svcs (.transportError e)).stats.out_of_stock_count =
        st.out_of_stock_count ∧
      (checkAvailability st svcs (.transportError e)).calls = []) ∧
    (∀ (st : Statistics) (svcs : List Service) (status : Nat) (body : String),
      status ≠ 200 →
      (checkAvailability st svcs (.response status body)).ret = false ∧
      (checkAvailability st svcs (.response status body)).stats.total_checks =
        st.total_checks + 1 ∧
      (checkAvailability st svcs (.response status body)).stats.error_count =
        st.error_count + 1 ∧
      (checkAvailability st svcs (.response status body)).stats.in_stock_count =
        st.in_stock_count ∧
      (checkAvailability st svcs (.response status body)).stats.out_of_stock_count =
        st.out_of_stock_count ∧
      (checkAvailability st svcs (.response status body)).calls = []) := by
  constructor
  · intro st svcs e
    simp [checkAvailability]
  · intro st svcs status body h
    simp [checkAvailability, h]

theorem check_error_behavior_witness :
    (500 : Nat) ≠ 200 ∧
    ((checkAvailability ⟨7, 1, 2, 3⟩ [] (.response 500 "server error")).ret
        = false ∧
     (checkAvailability ⟨7, 1, 2, 3⟩ []
        (.response 500 "server error")).stats.total_checks = 7 + 1 ∧
     (checkAvailability ⟨7, 1, 2, 3⟩ []
        (.response 500 "server error")).stats.error_count = 3 + 1 ∧
     (checkAvailability ⟨7, 1, 2, 3⟩ []
        (.response 500 "server error")).stats.in_stock_count = 1 ∧
     (checkAvailability ⟨7, 1, 2, 3⟩ []
        (.response 500 "server error")).stats.out_of_stock_count = 2 ∧
     (checkAvailability ⟨7, 1, 2, 3⟩ [] (.response 500 "server error")).calls
        = []) :=
  ⟨by decide,
   check_error_behavior.2 ⟨7, 1, 2, 3⟩ [] 500 "server error" (by decide)⟩

lemma check_total_succ (st : Statistics) (svcs : List Service)
    (o : HttpOutcome) :
    (checkAvailability st svcs o).stats.total_checks = st.total_checks + 1 := by
  cases o with
  | response status body =>
    by_cases h : status = 200
    · subst h
      cases hm : containsMarker body <;> simp [checkAvailability, hm]
    · simp [checkAvailability, h]
  | transportError e => rfl

lemma check_one_of (st : Statistics) (svcs : List Service) (o : HttpOutcome) :
    ((checkAvailability st svcs o).stats.in_stock_count =
        st.in_stock_count + 1 ∧
      (checkAvailability st svcs o).stats.out_of_stock_count =
        st.out_of_stock_count ∧
      (checkAvailability st svcs o).stats.error_count = st.error_count) ∨
    ((checkAvailability st svcs o).stats.out_of_stock_count =
        st.out_of_stock_count + 1 ∧
      (checkAvailability st svcs o).stats.in_stock_count =
        st.in_stock_count ∧
      (checkAvailability st svcs o).stats.error_count = st.error_count) ∨
    ((checkAvailability st svcs o).stats.error_count = st.error_count + 1 ∧
      (checkAvailability st svcs o).stats.in_stock_count =
        st.in_stock_count ∧
      (checkAvailability st svcs o).stats.out_of_stock_count =
        st.out_of_stock_count) := by
  cases o with
  | response status body =>
    by_cases h : status = 200
    · subst h
      cases hm : containsMarker body
      · exact Or.inl (by simp [checkAvailability, hm])
      · exact Or.inr (Or.inl (by simp [checkAvailability, hm]))
    · exact Or.inr (Or.inr (by simp [checkAvailability, h]))
  | transportError e => exact Or.inr (Or.inr (by simp [checkAvailability]))

lemma check_sum_succ (st : Statistics) (svcs : List Service)
    (o : HttpOutcome) :
    (checkAvailability st svcs o).stats.in_stock_count +
      (checkAvailability st svcs o).stats.out_of_stock_count +
      (checkAvailability st svcs o).stats.error_count =
    st.in_stock_count + st.out_of_stock_count + st.error_count + 1 := by
  rcases check_one_of st svcs o with ⟨h1, h2, h3⟩ | ⟨h1, h2, h3⟩ | ⟨h1, h2, h3⟩ <;>
    omega

lemma runChecks_cons (svcs : List Service) (init : Statistics)
    (o : HttpOutcome) (rest : List HttpOutcome) :
    runChecks svcs init (o :: rest) =
      runChecks svcs (checkAvailability init svcs o).stats rest := rfl

lemma runChecks_total (svcs : List Service) (outs : List HttpOutcome) :
    ∀ init : Statistics,
      (runChecks svcs init outs).total_checks =
        init.total_checks + outs.length := by
  induction outs with
  | nil => intro init; simp [runChecks]
  | cons o rest ih =>
    intro init
    rw [runChecks_cons, ih, check_total_succ]
    simp
    omega

lemma runChecks_sum (svcs : List Service) (outs : List HttpOutcome) :
    ∀ init : Statistics,
      (runChecks svcs init outs).in_stock_count +
        (runChecks svcs init outs).out_of_stock_count +
        (runChecks svcs init outs).error_count =
      init.in_stock_count + init.out_of_stock_count + init.error_count +
        outs.length := by
  induction outs with
  | nil => intro init; simp [runChecks]
  | cons o rest ih =>
    intro init
    rw [runChecks_cons, ih, check_sum_succ]
    simp
    omega

lemma statsLe_refl (a : Statistics) : statsLe a a := by
  simp [statsLe]

lemma statsLe_trans {a b c : Statistics} (h1 : statsLe a b)
    (h2 : statsLe b c) : statsLe a c := by
  obtain ⟨x1, x2, x3, x4⟩ := h1
  obtain ⟨y1, y2, y3, y4⟩ := h2
  exact ⟨x1.trans y1, x2.trans y2, x3.trans y3, x4.trans y4⟩

lemma check_statsLe (st : Statistics) (svcs : List Service)
    (o : HttpOutcome) : statsLe st (checkAvailability st svcs o).stats := by
  have h1 := check_total_succ st svcs o
  rcases check_one_of st svcs o with ⟨a1, a2, a3⟩ | ⟨a1, a2, a3⟩ | ⟨a1, a2, a3⟩ <;>
    exact ⟨by omega, by omega, by omega, by omega⟩

lemma runChecks_statsLe (svcs : List Service) (outs : List HttpOutcome) :
    ∀ init : Statistics, statsLe init (runChecks svcs init outs) := by
  induction outs with
  | nil => intro init; exact statsLe_refl init
  | cons o rest ih =>
    intro init
    rw [runChecks_cons]
    exact statsLe_trans (check_statsLe init svcs o)
      (ih (checkAvailability init svcs o).stats)

/-- Claim C2: every `check_availability` call increments `total_checks` by
exactly 1 and exactly one of the other three counters by exactly 1; hence,
starting from zeroed counters, after any sequence of N simulated HTTP
outcomes `total_checks = N` and
`in_stock_count + out_of_stock_count + error_count = total_checks`; and the
counters (which are `Nat`, hence non-negative) are monotonically
non-decreasing across calls: each call and each extension of a run of calls
only grows every counter. -/
theorem stats_counter_invariants :
    (∀ (st : Statistics) (svcs : List Service) (o : HttpOutcome),
      (checkAvailability st svcs o).stats.total_checks = st.total_checks + 1 ∧
      (((checkAvailability st svcs o).stats.in_stock_count =
          st.in_stock_count + 1 ∧
        (checkAvailability st svcs o).stats.out_of_stock_count =
          st.out_of_stock_count ∧
        (checkAvailability st svcs o).stats.error_count = st.error_count) ∨
       ((checkAvailability st svcs o).stats.out_of_stock_count =
          st.out_of_stock_count + 1 ∧
        (checkAvailability st svcs o).stats.in_stock_count =
          st.in_stock_count ∧
        (checkAvailability st svcs o).stats.error_count = st.error_count) ∨
       ((checkAvailability st svcs o).stats.error_count = st.error_count + 1 ∧
        (checkAvailability st svcs o).stats.in_stock_count =
          st.in_stock_count ∧
        (checkAvailability st svcs o).stats.out_of_stock_count =
          st.out_of_stock_count))) ∧
    (∀ (svcs : List Service) (outs : List HttpOutcome),
      (runChecks svcs {} outs).total_checks = outs.length ∧
      (runChecks svcs {} outs).in_stock_count +
        (runChecks svcs {} outs).out_of_stock_count +
        (runChecks svcs {} outs).error_count =
      (runChecks svcs {} outs).total_checks) ∧
    (∀ (st : Statistics) (svcs : List Service) (o : HttpOutcome),
      statsLe st (checkAvailability st svcs o).stats) ∧
    (∀ (svcs : List Service) (init : Statistics)
        (pre post : List HttpOutcome),
      statsLe (runChecks svcs init pre) (runChecks svcs init (pre ++ post))) := by
  refine ⟨?_, ?_, ?_, ?_⟩
  · intro st svcs o
    exact ⟨check_total_succ st svcs o, check_one_of st svcs o⟩
  · intro svcs outs
    have ht := runChecks_total svcs outs {}
    have hs := runChecks_sum svcs outs {}
    constructor
    · simpa using ht
    · simp only [runChecks_total svcs outs {}] at *
      simp at ht hs ⊢
      omega
  · intro st svcs o
    exact check_statsLe st svcs o
  · intro svcs init pre post
    rw [show runChecks svcs init (pre ++ post) =
        runChecks svcs (runChecks svcs init pre) post from
      List.foldl_append ..]
    exact runChecks_statsLe svcs post (runChecks svcs init pre)

lemma filterMap_err_of_all_raising (svcs : List Service)
    (hr : ∀ s ∈ svcs, s.raises = true) :
    (svcs.filterMap fun s =>
      match s.behavior with
      | .error e =>
        some (⟨"Error sending notification via " ++ s.name ++ ": " ++ e,
          .error⟩ : LogEntry)
      | .ok _ => none) =
    svcs.map fun s =>
      (⟨"Error sending notification via " ++ s.name ++ ": " ++ s.errMsg,
        .error⟩ : LogEntry) := by
  induction svcs with
  | nil => rfl
  | cons s rest ih =>
    have hs := hr s (List.mem_cons_self s rest)
    have hrest : ∀ x ∈ rest, x.raises = true := fun x hx =>
      hr x (List.mem_cons_of_mem s hx)
    cases hb : s.behavior with
    | ok u => simp [Service.raises, hb] at hs
    | error e =>
      simp [hb, ih hrest, Service.errMsg]

/-- Claim C9: in the in-stock case (status 200, marker absent),
`check_availability` still returns `True` and still increments
`in_stock_count` (and `total_checks`) by exactly 1 even when every
registered backend's `send_notification` raises: each backend is still
called once, each failure is swallowed inside `_notify_all` as an error log
line, and neither the return value nor the counters change. -/
theorem check_in_stock_all_raising (st : Statistics) (svcs : List Service)
    (body : String) (hm : containsMarker body = false)
    (hr : ∀ s ∈ svcs, s.raises = true) :
    (checkAvailability st svcs (.response 200 body)).ret = true ∧
    (checkAvailability st svcs (.response 200 body)).stats.in_stock_count =
      st.in_stock_count + 1 ∧
    (checkAvailability st svcs (.response 200 body)).stats.total_checks =
      st.total_checks + 1 ∧
    (checkAvailability st svcs (.response 200 body)).stats.out_of_stock_count =
      st.out_of_stock_count ∧
    (checkAvailability st svcs (.response 200 body)).stats.error_count =
      st.error_count ∧
    (checkAvailability st svcs (.response 200 body)).calls =
      (svcs.map fun s =>
        ⟨s.name, inStockTitle, inStockMessage, .success⟩) ∧
    (checkAvailability st svcs (.response 200 body)).logs =
      ⟨"IN STOCK! Sending notifications...", .success⟩ ::
        (svcs.map fun s =>
          ⟨"Error sending notification via " ++ s.name ++ ": " ++ s.errMsg,
            .error⟩) := by
  refine ⟨?_, ?_, ?_, ?_, ?_, ?_, ?_⟩ <;>
    simp [checkAvailability, hm, notifyAll_calls, notifyAll_logs,
      filterMap_err_of_all_raising svcs hr]

theorem check_in_stock_all_raising_witness :
    containsMarker "IN_STOCK" = false ∧
    (∀ s ∈ ([⟨"DesktopNotificationService", Except.error "popup failed"⟩,
             ⟨"DiscordNotificationService", Except.error "webhook down"⟩] :
        List Service), s.raises = true) ∧
    ((checkAvailability ⟨0, 0, 0, 0⟩
        [⟨"DesktopNotificationService", Except.error "popup failed"⟩,
         ⟨"DiscordNotificationService", Except.error "webhook down"⟩]
        (.response 200 "IN_STOCK")).ret = true ∧
     (checkAvailability ⟨0, 0, 0, 0⟩
        [⟨"DesktopNotificationService", Except.error "popup failed"⟩,
         ⟨"DiscordNotificationService", Except.error "webhook down"⟩]
        (.response 200 "IN_STOCK")).stats.in_stock_count = 0 + 1 ∧
     (checkAvailability ⟨0, 0, 0, 0⟩
        [⟨"DesktopNotificationService", Except.error "popup failed"⟩,
         ⟨"DiscordNotificationService", Except.error "webhook down"⟩]
        (.response 200 "IN_STOCK")).stats.total_checks = 0 + 1 ∧
     (checkAvailability ⟨0, 0, 0, 0⟩
        [⟨"DesktopNotificationService", Except.error "popup failed"⟩,
         ⟨"DiscordNotificationService", Except.error "webhook down"⟩]
        (.response 200 "IN_STOCK")).stats.out_of_stock_count = 0 ∧
     (checkAvailability ⟨0, 0, 0, 0⟩
        [⟨"DesktopNotificationService", Except.error "popup failed"⟩,
         ⟨"DiscordNotificationService", Except.error "webhook down"⟩]
        (.response 200 "IN_STOCK")).stats.error_count = 0 ∧
     (checkAvailability ⟨0, 0, 0, 0⟩
        [⟨"DesktopNotificationService", Except.error "popup failed"⟩,
         ⟨"DiscordNotificationService", Except.error "webhook down"⟩]
        (.response 200 "IN_STOCK")).calls =
       (([⟨"DesktopNotificationService", Except.error "popup failed"⟩,
          ⟨"DiscordNotificationService", Except.error "webhook down"⟩] :
           List Service).map fun s =>
         ⟨s.name, inStockTitle, inStockMessage, .success⟩) ∧
     (checkAvailability ⟨0, 0, 0, 0⟩
        [⟨"DesktopNotificationService", Except.error "popup failed"⟩,
         ⟨"DiscordNotificationService", Except.error "webhook down"⟩]
        (.response 200 "IN_STOCK")).logs =
       ⟨"IN STOCK! Sending notifications...", .success⟩ ::
         (([⟨"DesktopNotificationService", Except.error "popup failed"⟩,
            ⟨"DiscordNotificationService", Except.error "webhook down"⟩] :
             List Service).map fun s =>
           ⟨"Error sending notification via " ++ s.name ++ ": " ++ s.errMsg,
             .error⟩)) :=
  ⟨by decide, by decide,
   check_in_stock_all_raising ⟨0, 0, 0, 0⟩
     [⟨"DesktopNotificationService", Except.error "popup failed"⟩,
      ⟨"DiscordNotificationService", Except.error "webhook down"⟩]
     "IN_STOCK" (by decide) (by decide)⟩

lemma check_ret_eq (st : Statistics) (svcs : List Service) (o : HttpOutcome) :
    (checkAvailability st svcs o).ret = retOfOutcome o := by
  cases o with
  | response status body =>
    by_cases h : status = 200
    · subst h
      cases hm : containsMarker body <;>
        simp [checkAvailability, retOfOutcome, hm]
    · simp [checkAvailability, retOfOutcome, h]
  | transportError e => rfl

lemma mainLoop_all_false (svcs : List Service) (outs : List HttpOutcome) :
    ∀ st : Statistics, (∀ o ∈ outs, retOfOutcome o = false) →
      mainLoop svcs st outs =
        (outs.flatMap fun _ => [Event.check false, Event.sleep 300], false) := by
  induction outs with
  | nil => intro st _; rfl
  | cons o rest ih =>
    intro st h
    have ho : retOfOutcome o = false := h o (List.mem_cons_self o rest)
    have hrest : ∀ x ∈ rest, retOfOutcome x = false := fun x hx =>
      h x (List.mem_cons_of_mem o hx)
    simp [mainLoop, check_ret_eq, ho,
      ih (checkAvailability st svcs o).stats hrest]

lemma mainLoop_first_true (svcs : List Service) (pre : List HttpOutcome) :
    ∀ (st : Statistics) (o : HttpOutcome) (post : List HttpOutcome),
      (∀ p ∈ pre, retOfOutcome p = false) → retOfOutcome o = true →
      mainLoop svcs st (pre ++ o :: post) =
        ((pre.flatMap fun _ => [Event.check false, Event.sleep 300]) ++
          [Event.check true], true) := by
  induction pre with
  | nil =>
    intro st o post _ ho
    simp [mainLoop, check_ret_eq, ho]
  | cons p rest ih =>
    intro st o post h ho
    have hp : retOfOutcome p = false := h p (List.mem_cons_self p rest)
    have hrest : ∀ x ∈ rest, retOfOutcome x = false := fun x hx =>
      h x (List.mem_cons_of_mem p hx)
    simp [mainLoop, check_ret_eq, hp,
      ih (checkAvailability st svcs p).stats o post hrest ho]

/-- Claim C6: the main loop stops immediately after the first
`check_availability` invocation that returns `True` — that final iteration
produces a check event and no sleep, and no later outcome is examined; as
long as every invocation returns `False`, every iteration is a check
followed by a 300-second sleep and the loop never sets its termination flag
(the simulated run ends only because the supplied outcome list is finite),
so the loop has no exit path other than the first `True` return. -/
theorem main_loop_stops_on_first_true (svcs : List Service)
    (st : Statistics) (outs : List HttpOutcome) :
    ((∀ o ∈ outs, retOfOutcome o = false) →
      mainLoop svcs st outs =
        (outs.flatMap fun _ => [Event.check false, Event.sleep 300], false)) ∧
    (∀ (pre : List HttpOutcome) (o : HttpOutcome) (post : List HttpOutcome),
      outs = pre ++ o :: post →
      (∀ p ∈ pre, retOfOutcome p = false) → retOfOutcome o = true →
      mainLoop svcs st outs =
        ((pre.flatMap fun _ => [Event.check false, Event.sleep 300]) ++
          [Event.check true], true)) := by
  constructor
  · intro h
    exact mainLoop_all_false svcs outs st h
  · intro pre o post heq hpre ho
    subst heq
    exact mainLoop_first_true svcs pre st o post hpre ho

theorem main_loop_stops_on_first_true_witness :
    ((∀ o ∈ ([.transportError "timeout", .response 503 "maintenance"] :
        List HttpOutcome), retOfOutcome o = false) ∧
      mainLoop [] ⟨0, 0, 0, 0⟩
          [.transportError "timeout", .response 503 "maintenance"] =
        (([.transportError "timeout", .response 503 "maintenance"] :
            List HttpOutcome).flatMap
          fun _ => [Event.check false, Event.sleep 300], false)) ∧
    (([.response 200 "OUT_OF_STOCK", .response 200 "ready", .response 500 "x"] :
        List HttpOutcome) =
      [.response 200 "OUT_OF_STOCK"] ++
        .response 200 "ready" :: [.response 500 "x"] ∧
     (∀ p ∈ ([.response 200 "OUT_OF_STOCK"] : List HttpOutcome),
       retOfOutcome p = false) ∧
     retOfOutcome (.response 200 "ready") = true ∧
     mainLoop [] ⟨0, 0, 0, 0⟩
         [.response 200 "OUT_OF_STOCK", .response 200 "ready",
          .response 500 "x"] =
       ((([.response 200 "OUT_OF_STOCK"] : List HttpOutcome).flatMap
          fun _ => [Event.check false, Event.sleep 300]) ++
         [Event.check true], true)) :=
  ⟨⟨by decide,
    (main_loop_stops_on_first_true [] ⟨0, 0, 0, 0⟩
      [.transportError "timeout", .response 503 "maintenance"]).1
      (by decide)⟩,
   ⟨by decide, by decide, by decide,
    (main_loop_stops_on_first_true [] ⟨0, 0, 0, 0⟩
      [.response 200 "OUT_OF_STOCK", .response 200 "ready",
       .response 500 "x"]).2
      [.response 200 "OUT_OF_STOCK"] (.response 200 "ready")
      [.response 500 "x"] (by decide) (by decide) (by decide)⟩⟩

/-- Claim C10: `DiscordNotificationService.__init__` sets only
`webhook_url` and never the `statistics` attribute that
`send_notification` reads; the statistics-sharing loop of
`AirUpChecker.__init__` assigns `statistics` exactly to the
`DiscordNotificationService` instances in its service list, leaving other
services untouched; hence `send_notification` on a freshly constructed
Discord service that was never passed to an `AirUpChecker` raises
`AttributeError` (while building the embed, before the webhook POST) and
produces no webhook POST. -/
theorem discord_statistics_unset (url t m : String)
    (stt : NotificationStatus) (stats : Statistics) (d : DiscordService)
    (rest : List ServiceImpl) :
    (discordInit url).statistics = none ∧
    (discordInit url).webhook_url = url ∧
    discordSend (discordInit url) t m stt = .error .attributeError ∧
    shareStatistics stats (.desktop :: .discord d :: rest) =
      .desktop :: .discord { d with statistics := some stats } ::
        shareStatistics stats rest ∧
    discordSend { d with statistics := some stats } t m stt =
      .ok { url := d.webhook_url,
            embedTitle := emojiOf stt ++ " " ++ t,
            description := m,
            color := colorOf stt,
            statsField :=
              "Total Checks: " ++ pyNatStr stats.total_checks ++ "\n" ++
              "In Stock Count: " ++ pyNatStr stats.in_stock_count ++ "\n" ++
              "Out of Stock Count: " ++
                pyNatStr stats.out_of_stock_count ++ "\n" ++
              "Error Count: " ++ pyNatStr stats.error_count } := by
  refine ⟨rfl, rfl, rfl, ?_, rfl⟩
  simp [shareStatistics]

lemma flatMap_id_of (f : Char → List Char) (l : List Char)
    (h : ∀ c ∈ l, f c = [c]) : l.flatMap f = l := by
  induction l with
  | nil => rfl
  | cons c rest ih =>
    have hc := h c (List.mem_cons_self c rest)
    have hrest : ∀ x ∈ rest, f x = [x] := fun x hx =>
      h x (List.mem_cons_of_mem c hx)
    simp [hc, ih hrest]

lemma replChar_append (p : Char) (r : List Char) (l1 l2 : List Char) :
    replChar p r (l1 ++ l2) = replChar p r l1 ++ replChar p r l2 :=
  List.flatMap_append ..

lemma winEscape_append (l1 l2 : List Char) :
    winEscapeData (l1 ++ l2) = winEscapeData l1 ++ winEscapeData l2 := by
  simp [winEscapeData, replChar_append]

lemma specEscape_append (l1 l2 : List Char) :
    specEscapeData (l1 ++ l2) = specEscapeData l1 ++ specEscapeData l2 :=
  List.flatMap_append ..

lemma replChar_id (p : Char) (r : List Char) (l : List Char)
    (h : ∀ c ∈ l, c ≠ p) : replChar p r l = l := by
  apply flatMap_id_of
  intro c hc
  rw [if_neg (h c hc)]

lemma natDigits_isDigit : ∀ n, ∀ c ∈ natDigits n, c.isDigit = true := by
  intro n
  induction n using Nat.strong_induction_on with
  | _ n ih =>
    intro c hc
    rw [natDigits] at hc
    by_cases h : n < 10
    · simp only [h, dif_pos] at hc
      simp at hc
      subst hc
      clear ih
      revert h
      revert n
      decide
    · simp only [h, dif_neg, not_false_iff] at hc
      rw [List.mem_append] at hc
      rcases hc with hc | hc
      · exact ih (n / 10) (Nat.div_lt_self (by omega) (by omega)) c hc
      · simp at hc
        subst hc
        have hm : n % 10 < 10 := Nat.mod_lt n (by omega)
        clear ih h
        revert hm
        generalize n % 10 = m
        revert m
        decide

lemma isDigit_ne_special (c : Char) (h : c.isDigit = true) :
    c ≠ '(' ∧ c ≠ ')' ∧ c ≠ '!' ∧ c ≠ '^' ∧ c ≠ '&' ∧ c ≠ '|' ∧
      c ≠ '<' ∧ c ≠ '>' := by
  refine ⟨?_, ?_, ?_, ?_, ?_, ?_, ?_, ?_⟩ <;>
    · intro he
      subst he
      exact absurd h (by decide)

lemma winEscape_digits (n : Nat) :
    winEscapeData (natDigits n) = natDigits n := by
  have hd := natDigits_isDigit n
  unfold winEscapeData
  rw [replChar_id '(' ['^', '('] (natDigits n) fun c hc =>
      (isDigit_ne_special c (hd c hc)).1,
    replChar_id ')' ['^', ')'] (natDigits n) fun c hc =>
      (isDigit_ne_special c (hd c hc)).2.1,
    replChar_id '!' ['^', '!'] (natDigits n) fun c hc =>
      (isDigit_ne_special c (hd c hc)).2.2.1,
    replChar_id '^' ['^', '^'] (natDigits n) fun c hc =>
      (isDigit_ne_special c (hd c hc)).2.2.2.1,
    replChar_id '&' ['^', '&'] (natDigits n) fun c hc =>
      (isDigit_ne_special c (hd c hc)).2.2.2.2.1,
    replChar_id '|' ['^', '|'] (natDigits n) fun c hc =>
      (isDigit_ne_special c (hd c hc)).2.2.2.2.2.1,
    replChar_id '<' ['^', '<'] (natDigits n) fun c hc =>
      (isDigit_ne_special c (hd c hc)).2.2.2.2.2.2.1,
    replChar_id '>' ['^', '>'] (natDigits n) fun c hc =>
      (isDigit_ne_special c (hd c hc)).2.2.2.2.2.2.2]

lemma specEscape_digits (n : Nat) :
    specEscapeData (natDigits n) = natDigits n := by
  apply flatMap_id_of
  intro c hc
  obtain ⟨n1, n2, n3, n4, n5, n6, n7, n8⟩ :=
    isDigit_ne_special c (natDigits_isDigit n c hc)
  have hmem : c ∉ specialChars := by
    simp [specialChars]
    exact ⟨n1, n2, n3, n4, n5, n6, n7, n8⟩
  rw [if_neg hmem]

/-- Claim C8: for every statistics state, the escape chain of
`Statistics.update_title` behaves on the produced title exactly as the
intended single-caret escaping: each character of the special set
`( ) ! ^ & | < >` occurring in the unescaped title is prefixed with exactly
one caret in the escaped output, and every other character is unchanged.
(The titles built from the counters contain, of the special set, only `|`;
on such strings the source's replace chain coincides with the
single-caret-per-special-character escaping `specEscapeData`.) -/
theorem title_escape_single_caret (st : Statistics) :
    winEscapeData (mkTitleData st) = specEscapeData (mkTitleData st) := by
  unfold mkTitleData
  rw [winEscape_append, winEscape_append, winEscape_append,
    specEscape_append, specEscape_append, specEscape_append,
    winEscape_digits, winEscape_digits, specEscape_digits, specEscape_digits,
    show winEscapeData "AirUp Checker | No Stock: ".data =
        specEscapeData "AirUp Checker | No Stock: ".data from by decide,
    show winEscapeData " | Stock: ".data =
        specEscapeData " | Stock: ".data from by decide]

lemma jsonEscape_plain (s : String) (h : jsonPlain s = true) :
    jsonEscape s = s := by
  obtain ⟨data⟩ := s
  unfold jsonEscape
  have hall := List.all_eq_true.mp h
  rw [flatMap_id_of jsonEscChar data]
  intro c hc
  have hc' := hall c hc
  simp only [Bool.and_eq_true, Bool.not_eq_true', beq_eq_false_iff_ne,
    decide_eq_true_eq] at hc'
  unfold jsonEscChar
  rw [if_neg hc'.1.1, if_neg hc'.1.2]

/-- Claim C7 counterexample: the claim "for every `ProductConfig`, the body
produced by `_get_request_body` is a JSON array containing exactly one
object with exactly the five string fields whose values equal the config
fields" fails when a field value contains a double quote, because the
f-string interpolates the raw value with no escaping.  With
`cart_id = "abc\"def"` the produced body differs from the spec's shape (the
raw quote terminates the `cartId` string literal early, so the output is
not a JSON serialization of those field values at all). -/
theorem request_body_quote_counterexample :
    ¬ (getRequestBody
        ⟨"https://shop.air-up.com/it/en/bottles/classic/bottle-tritan-650ml-charcoal-grey-us",
         "abc\"def", "bottle-tritan-650ml-charcoal-grey-us",
         "3-pod-variety-pack-vivid-vibes-udb", "it", "en"⟩ =
       requestBodySpec
        ⟨"https://shop.air-up.com/it/en/bottles/classic/bottle-tritan-650ml-charcoal-grey-us",
         "abc\"def", "bottle-tritan-650ml-charcoal-grey-us",
         "3-pod-variety-pack-vivid-vibes-udb", "it", "en"⟩) := by
  decide

/-- Claim C7 (amended): for every `ProductConfig` whose five payload field
values contain no double quote, no backslash and no control character, the
HTTP request body produced by `_get_request_body` is exactly the JSON array
containing one object with the five string fields `cartId`, `bottleHandle`,
`flavorHandle`, `country`, `language` whose values equal the corresponding
`ProductConfig` fields (canonical serialization `requestBodySpec`). -/
theorem request_body_json_shape (cfg : ProductConfig)
    (h1 : jsonPlain cfg.cart_id = true)
    (h2 : jsonPlain cfg.bottle_handle = true)
    (h3 : jsonPlain cfg.flavor_handle = true)
    (h4 : jsonPlain cfg.country = true)
    (h5 : jsonPlain cfg.language = true) :
    getRequestBody cfg = requestBodySpec cfg := by
  unfold getRequestBody requestBodySpec
  rw [jsonEscape_plain cfg.cart_id h1, jsonEscape_plain cfg.bottle_handle h2,
    jsonEscape_plain cfg.flavor_handle h3, jsonEscape_plain cfg.country h4,
    jsonEscape_plain cfg.language h5]

theorem request_body_json_shape_witness :
    jsonPlain "your_cart_id_here" = true ∧
    jsonPlain "bottle-tritan-650ml-charcoal-grey-us" = true ∧
    jsonPlain "3-pod-variety-pack-vivid-vibes-udb" = true ∧
    jsonPlain "it" = true ∧
    jsonPlain "en" = true ∧
    getRequestBody
        ⟨"https://shop.air-up.com/it/en/bottles/classic/bottle-tritan-650ml-charcoal-grey-us",
         "your_cart_id_here", "bottle-tritan-650ml-charcoal-grey-us",
         "3-pod-variety-pack-vivid-vibes-udb", "it", "en"⟩ =
      requestBodySpec
        ⟨"https://shop.air-up.com/it/en/bottles/classic/bottle-tritan-650ml-charcoal-grey-us",
         "your_cart_id_here", "bottle-tritan-650ml-charcoal-grey-us",
         "3-pod-variety-pack-vivid-vibes-udb", "it", "en"⟩ :=
  ⟨by decide, by decide, by decide, by decide, by decide,
   request_body_json_shape
     ⟨"https://shop.air-up.com/it/en/bottles/classic/bottle-tritan-650ml-charcoal-grey-us",
      "your_cart_id_here", "bottle-tritan-650ml-charcoal-grey-us",
      "3-pod-variety-pack-vivid-vibes-udb", "it", "en"⟩
     (by decide) (by decide) (by decide) (by decide) (by decide)⟩
